import Mathlib

/-!
Shallow embedding of the Censeo planning-poker backend
(`backend/core/models.py`, `backend/core/api_views.py`,
`backend/core/views.py`, `backend/core/serializers.py`,
`backend/core/urls.py`).

The persistent store is modelled as explicit lists of records; each HTTP
view becomes a Lean function from the store and the request data to a
response paired with the updated store.  Timestamps are a monotone `Nat`
counter (`DB.now`); primary keys generated by the store (UUIDs, user ids)
are passed in explicitly.  Human-readable messages are abstracted into the
`Msg` enumeration; HTTP status codes stay concrete `Nat`s.
-/

namespace Censeo

/-- Model of `core.models.User` (the fields the API layer reads). -/
structure User where
  id : Nat
  email : String
  firstName : String
  lastName : String
  isActive : Bool
deriving DecidableEq

/-- Model of `core.models.Session`: status is one of "active", "completed", "paused". -/
structure Session where
  id : String
  name : String
  facilitatorId : Nat
  status : String
  createdAt : Nat
deriving DecidableEq

/-- Model of `core.models.SessionParticipant`: the through record for the
Session-User many-to-many relation. -/
structure SessionParticipant where
  sessionId : String
  userId : Nat
  joinedAt : Nat
  isActive : Bool
deriving DecidableEq

/-- Model of `core.models.Story`. -/
structure Story where
  id : String
  sessionId : String
  title : String
  description : String
  storyOrder : Nat
  status : String
  createdAt : Nat
deriving DecidableEq

/-- The relational store: one list per table, plus a monotone clock and a
user-id sequence. -/
structure DB where
  users : List User
  sessions : List Session
  participants : List SessionParticipant
  stories : List Story
  now : Nat
  nextUserId : Nat
deriving DecidableEq

/-- Abstracted response messages (success and error texts of the views). -/
inductive Msg where
  | successfullyJoined
  | alreadyJoined
  | welcomeBack
  | leftSession
  | statusUpdated
  | loginSuccessful
  | notFound
  | cannotJoinCompleted
  | notAParticipant
  | facilitatorsCannotLeave
  | noAccess
  | onlyFacilitator
  | invalidStatusOption
  | validationFailed
  | conflictStoryOrder
  | storyNotFound
deriving DecidableEq

/-- Lookup `Session.objects.get(id=sid)` / `get_object_or_404`. -/
def findSession (db : DB) (sid : String) : Option Session :=
  db.sessions.find? (fun s => s.id == sid)

/-- Lookup `SessionParticipant.objects.get(session=..., user=...)`. -/
def findParticipant (db : DB) (sid : String) (uid : Nat) :
    Option SessionParticipant :=
  db.participants.find? (fun p => p.sessionId == sid && p.userId == uid)

/-- Check `session.participants.filter(id=user.id).exists()` — the many-to-many
traversal goes through the join table and ignores `is_active`. -/
def hasParticipant (db : DB) (sid : String) (uid : Nat) : Bool :=
  db.participants.any (fun p => p.sessionId == sid && p.userId == uid)

/-- Lookup `User.objects.get(email=...)` for the mocked login. -/
def findUserByEmail (db : DB) (email : String) : Option User :=
  db.users.find? (fun u => u.email == email)

/-- Lookup `User.objects.get(id=...)` used when serializing participants. -/
def findUser (db : DB) (uid : Nat) : Option User :=
  db.users.find? (fun u => u.id == uid)

/-- Whitespace stripped by Python `str.strip()`. -/
def isSpaceChar (c : Char) : Bool :=
  c == ' ' || c == '\t' || c == '\n' || c == '\r' ||
    c == Char.ofNat 11 || c == Char.ofNat 12

/-- Python `str.strip()`: drop leading and trailing whitespace. -/
def stripStr (s : String) : String :=
  (((s.toList.dropWhile isSpaceChar).reverse.dropWhile
      isSpaceChar).reverse).asString

/-- Python `str.split(" ")` on the character list: split at every single
space, keeping empty pieces. -/
def splitOnSpaceAux : List Char → List Char → List (List Char)
  | [], acc => [acc.reverse]
  | c :: cs, acc =>
      if c == ' ' then acc.reverse :: splitOnSpaceAux cs []
      else splitOnSpaceAux cs (c :: acc)

/-- Model of Python `name.split(" ")`. -/
def splitOnSpace (s : String) : List String :=
  (splitOnSpaceAux s.toList []).map List.asString

/-- Row update for `participant.is_active = True; participant.save()`. -/
def reactivate (sid : String) (uid : Nat) (q : SessionParticipant) :
    SessionParticipant :=
  if q.sessionId == sid && q.userId == uid then { q with isActive := true }
  else q

/-- Row update for `participant.is_active = False; participant.save()`. -/
def deactivate (sid : String) (uid : Nat) (q : SessionParticipant) :
    SessionParticipant :=
  if q.sessionId == sid && q.userId == uid then { q with isActive := false }
  else q

/-- Response of `SessionJoinView.post`. -/
structure JoinResp where
  status : Nat
  message : Option Msg
  error : Option Msg
  sessionData : Option Session
  userData : Option SessionParticipant
deriving DecidableEq

/-- View `api_views.SessionJoinView.post`.  The URL layer hands the view an
already-parsed UUID, so the `except ValueError` branch of the source is
unreachable and the lookup can only fail with 404. -/
def session_join (db : DB) (sessionId : String) (userId : Nat) :
    JoinResp × DB :=
  match findSession db sessionId with
  | none =>
      ({ status := 404, message := none, error := some .notFound,
         sessionData := none, userData := none }, db)
  | some session =>
      if session.status == "completed" then
        ({ status := 400, message := none, error := some .cannotJoinCompleted,
           sessionData := none, userData := none }, db)
      else
        match findParticipant db sessionId userId with
        | none =>
            let p : SessionParticipant :=
              { sessionId := sessionId, userId := userId,
                joinedAt := db.now, isActive := true }
            ({ status := 200, message := some .successfullyJoined,
               error := none, sessionData := some session,
               userData := some p },
             { db with participants := db.participants ++ [p],
                       now := db.now + 1 })
        | some p =>
            if p.isActive then
              ({ status := 200, message := some .alreadyJoined,
                 error := none, sessionData := some session,
                 userData := some p }, db)
            else
              ({ status := 200, message := some .welcomeBack,
                 error := none, sessionData := some session,
                 userData := some { p with isActive := true } },
               { db with participants :=
                   db.participants.map (reactivate sessionId userId) })

/-- Response of `leave_session`. -/
structure LeaveResp where
  status : Nat
  message : Option Msg
  error : Option Msg
deriving DecidableEq

/-- View `api_views.leave_session`.  Participant-existence is checked before the
facilitator check; the facilitator refusal returns HTTP 400. -/
def leave_session (db : DB) (sessionId : String) (userId : Nat) :
    LeaveResp × DB :=
  match findSession db sessionId with
  | none =>
      ({ status := 404, message := none, error := some .notFound }, db)
  | some session =>
      match findParticipant db sessionId userId with
      | none =>
          ({ status := 400, message := none,
             error := some .notAParticipant }, db)
      | some _ =>
          if session.facilitatorId == userId then
            ({ status := 400, message := none,
               error := some .facilitatorsCannotLeave }, db)
          else
            ({ status := 200, message := some .leftSession, error := none },
             { db with participants :=
                 db.participants.map (deactivate sessionId userId) })

/-- Model of `AbstractUser.get_full_name`: first and last name joined and stripped. -/
def getFullName (u : User) : String :=
  (u.firstName ++ " " ++ u.lastName).trim

/-- One entry of `SessionParticipantSerializer`: name, email, join time and
active flag. -/
structure ParticipantView where
  name : String
  email : String
  joinedAt : Nat
  isActive : Bool
deriving DecidableEq

/-- Serializer `SessionParticipantSerializer` applied to one record. -/
def serializeParticipant (db : DB) (p : SessionParticipant) :
    ParticipantView :=
  { name := ((findUser db p.userId).map getFullName).getD "",
    email := ((findUser db p.userId).map (fun u => u.email)).getD "",
    joinedAt := p.joinedAt, isActive := p.isActive }

/-- Ordered insertion by `joined_at` (helper for `order_by("joined_at")`). -/
def insertByJoin (p : SessionParticipant) :
    List SessionParticipant → List SessionParticipant
  | [] => [p]
  | q :: qs =>
      if p.joinedAt ≤ q.joinedAt then p :: q :: qs
      else q :: insertByJoin p qs

/-- Sort of `order_by("joined_at")`: ascending by join time. -/
def sortByJoin : List SessionParticipant → List SessionParticipant
  | [] => []
  | p :: ps => insertByJoin p (sortByJoin ps)

/-- Response of `session_participants`. -/
structure ParticipantsResp where
  status : Nat
  error : Option Msg
  records : List SessionParticipant
  participants : List ParticipantView
  count : Nat
deriving DecidableEq

/-- View `api_views.session_participants`: access requires any join record
(active or not); the listing itself keeps only active records, ordered by
join time ascending. -/
def session_participants (db : DB) (sessionId : String) (userId : Nat) :
    ParticipantsResp :=
  match findSession db sessionId with
  | none =>
      { status := 404, error := some .notFound, records := [],
        participants := [], count := 0 }
  | some _ =>
      if !(hasParticipant db sessionId userId) then
        { status := 403, error := some .noAccess, records := [],
          participants := [], count := 0 }
      else
        let recs := sortByJoin (db.participants.filter
          (fun p => p.sessionId == sessionId && p.isActive))
        { status := 200, error := none, records := recs,
          participants := recs.map (serializeParticipant db),
          count := recs.length }

/-- Response of `update_session_status`. -/
structure StatusResp where
  status : Nat
  message : Option Msg
  error : Option Msg
  sessionData : Option Session
deriving DecidableEq

/-- The keys of `Session.STATUS_CHOICES`. -/
def sessionStatusChoices : List String :=
  ["active", "completed", "paused"]

/-- View `api_views.update_session_status`: facilitator-only, then the new
status must be one of the enumerated choices. -/
def update_session_status (db : DB) (sessionId : String) (userId : Nat)
    (newStatus : String) : StatusResp × DB :=
  match findSession db sessionId with
  | none =>
      ({ status := 404, message := none, error := some .notFound,
         sessionData := none }, db)
  | some session =>
      if session.facilitatorId != userId then
        ({ status := 403, message := none, error := some .onlyFacilitator,
           sessionData := none }, db)
      else if !(sessionStatusChoices.contains newStatus) then
        ({ status := 400, message := none,
           error := some .invalidStatusOption, sessionData := none }, db)
      else
        ({ status := 200, message := some .statusUpdated, error := none,
           sessionData := some { session with status := newStatus } },
         { db with sessions := (db.sessions.map
             (fun t => if t.id == sessionId then { t with status := newStatus }
                       else t)) })

/-- Response of `SessionListCreateView.create`. -/
structure CreateResp where
  status : Nat
  error : Option Msg
  sessionData : Option Session
deriving DecidableEq

/-- `SessionCreateSerializer.validate_name` rejection condition (the field
max_length plus the explicit trimmed-name checks). -/
def sessionNameInvalid (name : String) : Bool :=
  200 < name.length || (stripStr name).isEmpty || 200 < (stripStr name).length

/-- Views `SessionListCreateView.create` + `SessionCreateSerializer.create`:
validates the name, then in one transaction creates the session (acting
user as facilitator, status "active") and the facilitator's participant
record.  `newId` is the UUID the store generates. -/
def session_create (db : DB) (name : String) (userId : Nat)
    (newId : String) : CreateResp × DB :=
  if sessionNameInvalid name then
    ({ status := 400, error := some .validationFailed,
       sessionData := none }, db)
  else
    let session : Session :=
      { id := newId, name := stripStr name, facilitatorId := userId,
        status := "active", createdAt := db.now }
    let part : SessionParticipant :=
      { sessionId := newId, userId := userId, joinedAt := db.now,
        isActive := true }
    ({ status := 201, error := none, sessionData := some session },
     { db with sessions := db.sessions ++ [session],
               participants := db.participants ++ [part],
               now := db.now + 1 })

/-- Model of `name.split(" ")[0]` of the mocked login. -/
def firstNameOf (name : String) : String :=
  (splitOnSpace name).headD ""

/-- Model of `" ".join(name.split(" ")[1:]) if " " in name else ""`. -/
def lastNameOf (name : String) : String :=
  if name.toList.contains ' ' then
    String.intercalate " " (splitOnSpace name).tail
  else ""

/-- Row update for `user.first_name = ...; user.last_name = ...;
user.save()` keyed by email. -/
def renameUser (first last email : String) (v : User) : User :=
  if v.email == email then { v with firstName := first, lastName := last }
  else v

/-- Response of `mock_login`. -/
structure LoginResp where
  status : Nat
  error : Option Msg
  userId : Option Nat
  userName : Option String
  userEmail : Option String
deriving DecidableEq

/-- View `views.mock_login`: trims name and email, rejects blanks, then
get-or-creates the user by email and overwrites the stored name on every
login. -/
def mock_login (db : DB) (rawName rawEmail : String) : LoginResp × DB :=
  let name := stripStr rawName
  let email := stripStr rawEmail
  if name.isEmpty || email.isEmpty then
    ({ status := 400, error := some .validationFailed, userId := none,
       userName := none, userEmail := none }, db)
  else
    match findUserByEmail db email with
    | some u =>
        let u' : User :=
          { u with firstName := firstNameOf name, lastName := lastNameOf name }
        ({ status := 200, error := none, userId := some u.id,
           userName := some (getFullName u'), userEmail := some u.email },
         { db with users := (db.users.map
             (renameUser (firstNameOf name) (lastNameOf name) email)) })
    | none =>
        let u : User :=
          { id := db.nextUserId, email := email,
            firstName := firstNameOf name, lastName := lastNameOf name,
            isActive := true }
        ({ status := 200, error := none, userId := some u.id,
           userName := some (getFullName u), userEmail := some u.email },
         { db with users := db.users ++ [u],
                   nextUserId := db.nextUserId + 1 })

/-- Lexicographic order used by `order_by("story_order", "created_at")`. -/
def storyBefore (a b : Story) : Bool :=
  a.storyOrder < b.storyOrder ||
    (a.storyOrder == b.storyOrder && a.createdAt ≤ b.createdAt)

/-- Ordered insertion for the story listing. -/
def insertStory (a : Story) : List Story → List Story
  | [] => [a]
  | b :: bs => if storyBefore a b then a :: b :: bs else b :: insertStory a bs

/-- Sort of `order_by("story_order", "created_at")`. -/
def sortStories : List Story → List Story
  | [] => []
  | a :: as_ => insertStory a (sortStories as_)

/-- Response of the story listing. -/
structure StoryListResp where
  status : Nat
  error : Option Msg
  stories : List Story
deriving DecidableEq

/-- View `StoryListCreateView.list`: any join record (active or not) grants
access; stories are listed ordered by story_order then creation time. -/
def story_list (db : DB) (sessionId : String) (userId : Nat) :
    StoryListResp :=
  match findSession db sessionId with
  | none => { status := 404, error := some .notFound, stories := [] }
  | some _ =>
      if !(hasParticipant db sessionId userId) then
        { status := 403, error := some .noAccess, stories := [] }
      else
        { status := 200, error := none,
          stories := sortStories
            (db.stories.filter (fun st => st.sessionId == sessionId)) }

/-- Response of the story detail / create views. -/
structure StoryResp where
  status : Nat
  error : Option Msg
  storyData : Option Story
deriving DecidableEq

/-- View `StoryDetailView.retrieve`: any join record grants access, then the
story is looked up within the session. -/
def story_retrieve (db : DB) (sessionId storyId : String) (userId : Nat) :
    StoryResp :=
  match findSession db sessionId with
  | none => { status := 404, error := some .notFound, storyData := none }
  | some _ =>
      if !(hasParticipant db sessionId userId) then
        { status := 403, error := some .noAccess, storyData := none }
      else
        match db.stories.find?
            (fun st => st.sessionId == sessionId && st.id == storyId) with
        | none =>
            { status := 404, error := some .storyNotFound, storyData := none }
        | some st => { status := 200, error := none, storyData := some st }

/-- The keys of `Story.STATUS_CHOICES`. -/
def storyStatusChoices : List String :=
  ["pending", "voting", "completed"]

/-- Modelled from the spec: `StoryCreateSerializer` is imported by
`api_views.py` but its definition is not among the provided sources, so
its validation and the surfacing of the (session, story_order) uniqueness
violation follow the spec: title required and at most 500 characters,
status drawn from the enumerated choices, and a colliding `story_order`
within the session fails with Conflict.  The session lookup and the
facilitator-only check come from `StoryListCreateView.create`. -/
def story_create (db : DB) (sessionId : String) (userId : Nat)
    (title description : String) (storyOrder : Nat) (storyStatus : String)
    (newId : String) : StoryResp × DB :=
  match findSession db sessionId with
  | none =>
      ({ status := 404, error := some .notFound, storyData := none }, db)
  | some session =>
      if session.facilitatorId != userId then
        ({ status := 403, error := some .onlyFacilitator,
           storyData := none }, db)
      else if title.isEmpty || 500 < title.length ||
          !(storyStatusChoices.contains storyStatus) then
        ({ status := 400, error := some .validationFailed,
           storyData := none }, db)
      else if db.stories.any
          (fun st => st.sessionId == sessionId && st.storyOrder == storyOrder)
        then
        ({ status := 409, error := some .conflictStoryOrder,
           storyData := none }, db)
      else
        let st : Story :=
          { id := newId, sessionId := sessionId, title := title,
            description := description, storyOrder := storyOrder,
            status := storyStatus, createdAt := db.now }
        ({ status := 201, error := none, storyData := some st },
         { db with stories := db.stories ++ [st], now := db.now + 1 })

/-- One character of the `<uuid:...>` path-converter alphabet. -/
def isLowerHex (c : Char) : Bool :=
  ('0' ≤ c && c ≤ '9') || ('a' ≤ c && c ≤ 'f')

/-- Django's `uuid` path converter: 36 characters, hyphens at positions
8, 13, 18 and 23, lowercase hex elsewhere.  A segment that does not match
never reaches any view: URL resolution itself answers 404. -/
def isUuidToken (s : String) : Bool :=
  let cs := s.toList
  cs.length == 36 &&
    (List.range 36).all (fun i =>
      if i == 8 || i == 13 || i == 18 || i == 23 then cs.getD i ' ' == '-'
      else isLowerHex (cs.getD i ' '))

/-- URL dispatch for `sessions/<uuid:session_id>/join/`. -/
def dispatch_join (db : DB) (rawId : String) (userId : Nat) :
    JoinResp × DB :=
  if isUuidToken rawId then session_join db rawId userId
  else
    ({ status := 404, message := none, error := some .notFound,
       sessionData := none, userData := none }, db)

/-- URL dispatch for `sessions/<uuid:session_id>/leave/`. -/
def dispatch_leave (db : DB) (rawId : String) (userId : Nat) :
    LeaveResp × DB :=
  if isUuidToken rawId then leave_session db rawId userId
  else ({ status := 404, message := none, error := some .notFound }, db)

/-- URL dispatch for `sessions/<uuid:session_id>/participants/`. -/
def dispatch_participants (db : DB) (rawId : String) (userId : Nat) :
    ParticipantsResp :=
  if isUuidToken rawId then session_participants db rawId userId
  else
    { status := 404, error := some .notFound, records := [],
      participants := [], count := 0 }

/-- URL dispatch for `sessions/<uuid:session_id>/status/`. -/
def dispatch_update_status (db : DB) (rawId : String) (userId : Nat)
    (newStatus : String) : StatusResp × DB :=
  if isUuidToken rawId then update_session_status db rawId userId newStatus
  else
    ({ status := 404, message := none, error := some .notFound,
       sessionData := none }, db)

/-- Invariant of the `unique_together ["session", "user"]` constraint of
`SessionParticipant`. -/
def ParticipantUnique (db : DB) : Prop :=
  db.participants.Pairwise
    (fun p q => ¬(p.sessionId = q.sessionId ∧ p.userId = q.userId))

/-- Invariant of the `unique_together ["session", "story_order"]` constraint of
`Story`. -/
def StoryOrderUnique (db : DB) : Prop :=
  db.stories.Pairwise
    (fun a b => ¬(a.sessionId = b.sessionId ∧ a.storyOrder = b.storyOrder))

/-!  Concrete store states used to witness the theorems below. -/

/-- A populated store: Alice (id 1) facilitates three sessions; in "s1"
Bob (id 2) is an active participant and Cara (id 3) an inactive one;
"s2" is completed, "s3" is paused; "s1" holds one story of order 1. -/
def exDb : DB :=
  { users :=
      [⟨1, "alice@x.com", "Alice", "A", true⟩,
       ⟨2, "bob@x.com", "Bob", "B", true⟩,
       ⟨3, "cara@x.com", "Cara", "C", true⟩],
    sessions :=
      [⟨"s1", "Sprint Planning", 1, "active", 0⟩,
       ⟨"s2", "Old Sprint", 1, "completed", 0⟩,
       ⟨"s3", "On Hold", 1, "paused", 0⟩],
    participants :=
      [⟨"s1", 1, 0, true⟩, ⟨"s1", 2, 1, true⟩, ⟨"s1", 3, 2, false⟩,
       ⟨"s2", 1, 0, true⟩, ⟨"s3", 1, 0, true⟩],
    stories := [⟨"st1", "s1", "Login page", "", 1, "pending", 3⟩],
    now := 4, nextUserId := 4 }

/-!  Helper lemmas. -/

theorem reactivate_sessionId (sid : String) (uid : Nat)
    (q : SessionParticipant) :
    (reactivate sid uid q).sessionId = q.sessionId := by
  unfold reactivate
  split <;> rfl

theorem reactivate_userId (sid : String) (uid : Nat)
    (q : SessionParticipant) :
    (reactivate sid uid q).userId = q.userId := by
  unfold reactivate
  split <;> rfl

theorem deactivate_sessionId (sid : String) (uid : Nat)
    (q : SessionParticipant) :
    (deactivate sid uid q).sessionId = q.sessionId := by
  unfold deactivate
  split <;> rfl

theorem deactivate_userId (sid : String) (uid : Nat)
    (q : SessionParticipant) :
    (deactivate sid uid q).userId = q.userId := by
  unfold deactivate
  split <;> rfl

theorem find?_map_pred {α : Type} {f : α → α} {p : α → Bool}
    (hf : ∀ a, p (f a) = p a) (l : List α) :
    (l.map f).find? p = (l.find? p).map f := by
  induction l with
  | nil => rfl
  | cons a l ih =>
      simp only [List.map_cons, List.find?_cons, hf a]
      cases hpa : p a <;> simp [ih]

theorem mem_insertByJoin {x p : SessionParticipant}
    {l : List SessionParticipant} :
    x ∈ insertByJoin p l ↔ x = p ∨ x ∈ l := by
  induction l with
  | nil => simp [insertByJoin]
  | cons q qs ih =>
      simp only [insertByJoin]
      split
      · simp [List.mem_cons]
      · simp only [List.mem_cons, ih]
        tauto

theorem mem_sortByJoin {x : SessionParticipant}
    {l : List SessionParticipant} :
    x ∈ sortByJoin l ↔ x ∈ l := by
  induction l with
  | nil => simp [sortByJoin]
  | cons p ps ih => simp [sortByJoin, mem_insertByJoin, ih]

theorem sorted_insertByJoin {p : SessionParticipant}
    {l : List SessionParticipant}
    (h : l.Pairwise (fun a b => a.joinedAt ≤ b.joinedAt)) :
    (insertByJoin p l).Pairwise (fun a b => a.joinedAt ≤ b.joinedAt) := by
  induction l with
  | nil => simp [insertByJoin]
  | cons q qs ih =>
      rcases List.pairwise_cons.1 h with ⟨hq, hqs⟩
      simp only [insertByJoin]
      split
      case isTrue hle =>
          refine List.pairwise_cons.2 ⟨?_, h⟩
          intro b hb
          rcases List.mem_cons.1 hb with rfl | hb
          · exact hle
          · exact Nat.le_trans hle (hq b hb)
      case isFalse hgt =>
          refine List.pairwise_cons.2 ⟨?_, ih hqs⟩
          intro b hb
          rcases mem_insertByJoin.1 hb with rfl | hb
          · exact Nat.le_of_not_le hgt
          · exact hq b hb

theorem sorted_sortByJoin (l : List SessionParticipant) :
    (sortByJoin l).Pairwise (fun a b => a.joinedAt ≤ b.joinedAt) := by
  induction l with
  | nil => simp [sortByJoin]
  | cons p ps ih => exact sorted_insertByJoin ih

theorem session_join_paths (db : DB) (sid : String) (uid : Nat)
    (s : Session) (hs : findSession db sid = some s)
    (hns : s.status ≠ "completed") :
    (session_join db sid uid).1.status = 200 ∧
    (session_join db sid uid).1.sessionData = some s ∧
    (session_join db sid uid).1.error = none ∧
    (findParticipant db sid uid = none →
      (session_join db sid uid).1.message = some Msg.successfullyJoined ∧
      (session_join db sid uid).1.userData = some ⟨sid, uid, db.now, true⟩ ∧
      (session_join db sid uid).2.participants =
        db.participants ++ [⟨sid, uid, db.now, true⟩]) ∧
    (∀ p, findParticipant db sid uid = some p → p.isActive = true →
      (session_join db sid uid).1.message = some Msg.alreadyJoined ∧
      (session_join db sid uid).1.userData = some p ∧
      (session_join db sid uid).2 = db) ∧
    (∀ p, findParticipant db sid uid = some p → p.isActive = false →
      (session_join db sid uid).1.message = some Msg.welcomeBack ∧
      (session_join db sid uid).1.userData = some { p with isActive := true } ∧
      (session_join db sid uid).2.participants =
        db.participants.map (reactivate sid uid)) := by
  have hc : (s.status == "completed") = false := beq_eq_false_iff_ne.2 hns
  refine ⟨?_, ?_, ?_, ?_, ?_, ?_⟩
  · cases hp : findParticipant db sid uid with
    | none => simp [session_join, hs, hc, hp]
    | some p => cases hpa : p.isActive <;> simp [session_join, hs, hc, hp, hpa]
  · cases hp : findParticipant db sid uid with
    | none => simp [session_join, hs, hc, hp]
    | some p => cases hpa : p.isActive <;> simp [session_join, hs, hc, hp, hpa]
  · cases hp : findParticipant db sid uid with
    | none => simp [session_join, hs, hc, hp]
    | some p => cases hpa : p.isActive <;> simp [session_join, hs, hc, hp, hpa]
  · intro hp
    simp [session_join, hs, hc, hp]
  · intro p hp hpa
    simp [session_join, hs, hc, hp, hpa]
  · intro p hp hpa
    simp [session_join, hs, hc, hp, hpa]

theorem participantUnique_session_join (db : DB) (sid : String) (uid : Nat)
    (h : ParticipantUnique db) :
    ParticipantUnique (session_join db sid uid).2 := by
  unfold session_join
  cases hs : findSession db sid with
  | none => exact h
  | some s =>
      cases hc : s.status == "completed" with
      | true => simpa [hc] using h
      | false =>
          cases hp : findParticipant db sid uid with
          | none =>
              simp only [hc, Bool.false_eq_true, if_false]
              unfold ParticipantUnique at h ⊢
              simp only []
              rw [List.pairwise_append]
              refine ⟨h, List.pairwise_singleton _ _, ?_⟩
              intro a ha b hb
              have hbe : b = ⟨sid, uid, db.now, true⟩ := by
                simpa using hb
              have := List.find?_eq_none.1 hp a ha
              simp only [Bool.and_eq_true, beq_iff_eq] at this
              subst hbe
              intro hcon
              exact this ⟨hcon.1, hcon.2⟩
          | some p =>
              cases hpa : p.isActive with
              | true => simpa [hc, hp, hpa] using h
              | false =>
                  simp only [hc, Bool.false_eq_true, if_false, hp, hpa]
                  unfold ParticipantUnique at h ⊢
                  simp only []
                  refine List.Pairwise.map (reactivate sid uid) ?_ h
                  intro a b hab hcon
                  refine hab ?_
                  rw [reactivate_sessionId, reactivate_sessionId,
                      reactivate_userId, reactivate_userId] at hcon
                  exact hcon

/-- C1: for a session that exists and is not completed, Join follows
exactly one of three paths, each answering HTTP success with the current
session and the participant record: no record yet — a fresh active record
is created and the message reports successfully joined; an active record —
nothing changes and the message reports already joined; an inactive
record — it is reactivated and the message reports welcome back.  The
at-most-one-record-per-(session, user) invariant is preserved. -/
theorem join_three_path_semantics (db : DB) (sid : String) (uid : Nat)
    (s : Session) (hs : findSession db sid = some s)
    (hns : s.status ≠ "completed") (hu : ParticipantUnique db) :
    (session_join db sid uid).1.status = 200 ∧
    (session_join db sid uid).1.sessionData = some s ∧
    (findParticipant db sid uid = none →
      (session_join db sid uid).1.message = some Msg.successfullyJoined ∧
      (session_join db sid uid).1.userData = some ⟨sid, uid, db.now, true⟩ ∧
      (session_join db sid uid).2.participants =
        db.participants ++ [⟨sid, uid, db.now, true⟩]) ∧
    (∀ p, findParticipant db sid uid = some p → p.isActive = true →
      (session_join db sid uid).1.message = some Msg.alreadyJoined ∧
      (session_join db sid uid).1.userData = some p ∧
      (session_join db sid uid).2 = db) ∧
    (∀ p, findParticipant db sid uid = some p → p.isActive = false →
      (session_join db sid uid).1.message = some Msg.welcomeBack ∧
      (session_join db sid uid).1.userData = some { p with isActive := true } ∧
      (session_join db sid uid).2.participants =
        db.participants.map (reactivate sid uid)) ∧
    ParticipantUnique (session_join db sid uid).2 := by
  obtain ⟨h1, h2, _, h4, h5, h6⟩ := session_join_paths db sid uid s hs hns
  exact ⟨h1, h2, h4, h5, h6, participantUnique_session_join db sid uid hu⟩

/-- C1 witness: in `exDb`, Bob (id 2) joins "s1" where he is already an
active participant: the call reports 200 with an already-joined message,
leaves the store unchanged, and uniqueness still holds. -/
theorem join_three_path_semantics_witness :
    ParticipantUnique exDb ∧
    (⟨"s1", "Sprint Planning", 1, "active", 0⟩ : Session).status ≠ "completed" ∧
    (session_join exDb "s1" 2).1.status = 200 ∧
    (session_join exDb "s1" 2).1.message = some Msg.alreadyJoined ∧
    (session_join exDb "s1" 2).2 = exDb ∧
    ParticipantUnique (session_join exDb "s1" 2).2 := by
  have hu : ParticipantUnique exDb := by
    unfold ParticipantUnique
    decide
  have h := join_three_path_semantics exDb "s1" 2
    ⟨"s1", "Sprint Planning", 1, "active", 0⟩ rfl (by decide) hu
  have hp := h.2.2.2.1 ⟨"s1", 2, 1, true⟩ rfl rfl
  exact ⟨hu, by decide, h.1, hp.1, hp.2.2, h.2.2.2.2.2⟩

/-- C6: joining a session whose status is "completed" fails with the
invalid-state error (HTTP 400, cannot join a completed session) and the
store — hence every participant record — is left untouched, regardless of
whether the acting user already holds a record. -/
theorem join_completed_fails (db : DB) (sid : String) (uid : Nat)
    (s : Session) (hs : findSession db sid = some s)
    (hcst : s.status = "completed") :
    (session_join db sid uid).1.status = 400 ∧
    (session_join db sid uid).1.error = some Msg.cannotJoinCompleted ∧
    (session_join db sid uid).2 = db := by
  simp [session_join, hs, hcst]

/-- C6 witness: Alice (id 1), who already has a participant record for
the completed session "s2", still gets the invalid-state refusal. -/
theorem join_completed_fails_witness :
    findSession exDb "s2" =
      some ⟨"s2", "Old Sprint", 1, "completed", 0⟩ ∧
    (session_join exDb "s2" 1).1.status = 400 ∧
    (session_join exDb "s2" 1).1.error = some Msg.cannotJoinCompleted ∧
    (session_join exDb "s2" 1).2 = exDb := by
  have h := join_completed_fails exDb "s2" 1
    ⟨"s2", "Old Sprint", 1, "completed", 0⟩ rfl rfl
  exact ⟨rfl, h.1, h.2.1, h.2.2⟩

/-- C9 (implicit): only the "completed" status blocks Join — for a paused
(or active) session the call succeeds with HTTP 200, no error, and the
same three-path semantics as for an active session. -/
theorem join_allowed_when_paused (db : DB) (sid : String) (uid : Nat)
    (s : Session) (hs : findSession db sid = some s)
    (hps : s.status = "paused" ∨ s.status = "active") :
    (session_join db sid uid).1.status = 200 ∧
    (session_join db sid uid).1.error = none ∧
    (findParticipant db sid uid = none →
      (session_join db sid uid).1.message = some Msg.successfullyJoined ∧
      (session_join db sid uid).2.participants =
        db.participants ++ [⟨sid, uid, db.now, true⟩]) ∧
    (∀ p, findParticipant db sid uid = some p → p.isActive = true →
      (session_join db sid uid).1.message = some Msg.alreadyJoined ∧
      (session_join db sid uid).2 = db) ∧
    (∀ p, findParticipant db sid uid = some p → p.isActive = false →
      (session_join db sid uid).1.message = some Msg.welcomeBack ∧
      (session_join db sid uid).2.participants =
        db.participants.map (reactivate sid uid)) := by
  have hns : s.status ≠ "completed" := by
    rcases hps with h | h <;> rw [h] <;> decide
  obtain ⟨h1, _, h3, h4, h5, h6⟩ := session_join_paths db sid uid s hs hns
  refine ⟨h1, h3, fun hp => ⟨(h4 hp).1, (h4 hp).2.2⟩,
    fun p hp hpa => ⟨(h5 p hp hpa).1, (h5 p hp hpa).2.2⟩,
    fun p hp hpa => ⟨(h6 p hp hpa).1, (h6 p hp hpa).2.2⟩⟩

/-- C9 witness: Bob (id 2) joins the paused session "s3" with no prior
record: the join succeeds and creates his active record. -/
theorem join_allowed_when_paused_witness :
    (⟨"s3", "On Hold", 1, "paused", 0⟩ : Session).status = "paused" ∧
    (session_join exDb "s3" 2).1.status = 200 ∧
    (session_join exDb "s3" 2).1.message = some Msg.successfullyJoined ∧
    (session_join exDb "s3" 2).2.participants =
      exDb.participants ++ [⟨"s3", 2, 4, true⟩] := by
  have h := join_allowed_when_paused exDb "s3" 2
    ⟨"s3", "On Hold", 1, "paused", 0⟩ rfl (Or.inl rfl)
  have hp := h.2.2.1 rfl
  exact ⟨rfl, h.1, hp.1, hp.2⟩

/-- C2 counterexample: Alice (id 1) facilitates "s1" and holds a
participant record for it, yet her Leave call answers HTTP 400, not the
403 Forbidden the claim states. -/
theorem leave_facilitator_not_forbidden_cex :
    (leave_session exDb "s1" 1).1.status = 400 ∧
    ¬((leave_session exDb "s1" 1).1.status = 403) := by
  constructor <;> decide

/-- C2 (amended): a facilitator calling Leave on their own session fails
with HTTP 400 Bad Request (facilitators cannot leave their own sessions)
and the store is unchanged; any other participant's Leave answers 200 and
flips the record's is_active to false, deleting nothing (the participant
count is preserved and the deactivated record is still present). -/
theorem leave_semantics (db : DB) (sid : String) (uid : Nat) (s : Session)
    (p : SessionParticipant) (hs : findSession db sid = some s)
    (hp : findParticipant db sid uid = some p) :
    (s.facilitatorId = uid →
      (leave_session db sid uid).1.status = 400 ∧
      (leave_session db sid uid).1.error = some Msg.facilitatorsCannotLeave ∧
      (leave_session db sid uid).2 = db) ∧
    (s.facilitatorId ≠ uid →
      (leave_session db sid uid).1.status = 200 ∧
      (leave_session db sid uid).2.participants.length =
        db.participants.length ∧
      { p with isActive := false } ∈ (leave_session db sid uid).2.participants ∧
      (leave_session db sid uid).2.participants =
        db.participants.map (deactivate sid uid)) := by
  constructor
  · intro hf
    have hfb : (s.facilitatorId == uid) = true := beq_iff_eq.2 hf
    simp [leave_session, hs, hp, hfb]
  · intro hf
    have hfb : (s.facilitatorId == uid) = false := beq_eq_false_iff_ne.2 hf
    have hkey := List.find?_some hp
    have hmem := List.mem_of_find?_eq_some hp
    have hd : deactivate sid uid p = { p with isActive := false } := by
      simp [deactivate, hkey]
    have hlv : (leave_session db sid uid).2.participants =
        db.participants.map (deactivate sid uid) := by
      simp [leave_session, hs, hp, hfb]
    refine ⟨by simp [leave_session, hs, hp, hfb], ?_, ?_, hlv⟩
    · rw [hlv]
      exact List.length_map _ _
    · rw [hlv, ← hd]
      exact List.mem_map_of_mem _ hmem

/-- C2 (amended) witness: Bob (id 2), not the facilitator of "s1", leaves
it: 200, his record flips to inactive and no record is deleted. -/
theorem leave_semantics_witness :
    findParticipant exDb "s1" 2 = some ⟨"s1", 2, 1, true⟩ ∧
    (⟨"s1", "Sprint Planning", 1, "active", 0⟩ : Session).facilitatorId ≠ 2 ∧
    (leave_session exDb "s1" 2).1.status = 200 ∧
    (⟨"s1", 2, 1, false⟩ : SessionParticipant) ∈
      (leave_session exDb "s1" 2).2.participants ∧
    (leave_session exDb "s1" 2).2.participants.length =
      exDb.participants.length := by
  have h := (leave_semantics exDb "s1" 2
    ⟨"s1", "Sprint Planning", 1, "active", 0⟩ ⟨"s1", 2, 1, true⟩
    rfl rfl).2 (by decide)
  exact ⟨rfl, by decide, h.1, h.2.2.1, h.2.1⟩

/-- C3: a malformed session-id path segment never matches the `uuid` path
converter, so Join, Leave, ListParticipants and UpdateStatus all answer
404 NotFound — the distinct bad-format 400 branch in the views is
unreachable. -/
theorem malformed_session_id_yields_404 (db : DB) (raw : String)
    (uid : Nat) (newStatus : String) (h : isUuidToken raw = false) :
    (dispatch_join db raw uid).1.status = 404 ∧
    (dispatch_leave db raw uid).1.status = 404 ∧
    (dispatch_participants db raw uid).status = 404 ∧
    (dispatch_update_status db raw uid newStatus).1.status = 404 := by
  simp [dispatch_join, dispatch_leave, dispatch_participants,
    dispatch_update_status, h]

/-- C3 witness: the segment "invalid-id" is not a UUID and every one of
the four operations answers 404 on it. -/
theorem malformed_session_id_yields_404_witness :
    isUuidToken "invalid-id" = false ∧
    (dispatch_join exDb "invalid-id" 1).1.status = 404 ∧
    (dispatch_leave exDb "invalid-id" 1).1.status = 404 ∧
    (dispatch_participants exDb "invalid-id" 1).status = 404 ∧
    (dispatch_update_status exDb "invalid-id" 1 "completed").1.status = 404 := by
  have h : isUuidToken "invalid-id" = false := by decide
  have hm := malformed_session_id_yields_404 exDb "invalid-id" 1 "completed" h
  exact ⟨h, hm.1, hm.2.1, hm.2.2.1, hm.2.2.2⟩

/-- C4: story creation preserves the (session, story_order) uniqueness
invariant — no two stories of one session ever coexist with equal order —
and a create whose order collides with an existing story of the same
session (passing the facilitator and validation checks) answers 409
Conflict and leaves the store unchanged. -/
theorem story_create_order_unique (db : DB) (sid : String) (uid : Nat)
    (title description : String) (ord : Nat) (stStatus newId : String)
    (hu : StoryOrderUnique db) :
    StoryOrderUnique
      (story_create db sid uid title description ord stStatus newId).2 ∧
    (∀ s, findSession db sid = some s → s.facilitatorId = uid →
      (title.isEmpty || 500 < title.length ||
        !(storyStatusChoices.contains stStatus)) = false →
      db.stories.any
        (fun st => st.sessionId == sid && st.storyOrder == ord) = true →
      (story_create db sid uid title description ord stStatus newId).1.status
          = 409 ∧
      (story_create db sid uid title description ord stStatus newId).1.error
          = some Msg.conflictStoryOrder ∧
      (story_create db sid uid title description ord stStatus newId).2 = db) := by
  constructor
  · unfold StoryOrderUnique at hu ⊢
    unfold story_create
    split
    · exact hu
    · split
      · exact hu
      · split
        · exact hu
        · split
          · exact hu
          · rename_i hany
            rw [Bool.not_eq_true] at hany
            have hany' := List.any_eq_false.1 hany
            refine List.pairwise_append.2 ⟨hu, List.pairwise_singleton _ _, ?_⟩
            intro a ha b hb
            have hbe : b = ⟨newId, sid, title, description, ord, stStatus,
                db.now⟩ := by simpa using hb
            have := hany' a ha
            simp only [Bool.and_eq_true, beq_iff_eq] at this
            subst hbe
            intro hcon
            exact this ⟨hcon.1, hcon.2⟩
  · intro s hsx hf hval hcol
    rw [Bool.or_eq_false_iff, Bool.or_eq_false_iff] at hval
    obtain ⟨⟨h1, h2⟩, h3⟩ := hval
    rw [decide_eq_false_iff_not] at h2
    have h3' : stStatus ∈ storyStatusChoices := by
      rw [Bool.not_eq_false'] at h3
      simpa using h3
    simp [story_create, hsx, hf, h1, h2, h3', hcol]

/-- C4 witness: "s1" already holds a story of order 1; the facilitator's
attempt to create another order-1 story in "s1" answers 409 and changes
nothing, and the uniqueness invariant still holds. -/
theorem story_create_order_unique_witness :
    StoryOrderUnique exDb ∧
    exDb.stories.any
      (fun st => st.sessionId == "s1" && st.storyOrder == 1) = true ∧
    (story_create exDb "s1" 1 "Duplicate" "" 1 "pending" "st9").1.status
        = 409 ∧
    (story_create exDb "s1" 1 "Duplicate" "" 1 "pending" "st9").2 = exDb ∧
    StoryOrderUnique
      (story_create exDb "s1" 1 "Duplicate" "" 1 "pending" "st9").2 := by
  have hu : StoryOrderUnique exDb := by
    unfold StoryOrderUnique
    decide
  have h := story_create_order_unique exDb "s1" 1 "Duplicate" "" 1 "pending"
    "st9" hu
  have h2 := h.2 ⟨"s1", "Sprint Planning", 1, "active", 0⟩ rfl rfl
    (by decide) (by decide)
  exact ⟨hu, by decide, h2.1, h2.2.2, h.1⟩

/-- C5: with a valid name and a fresh store-generated id, session
creation answers 201 and in one step records the session — acting user as
facilitator, status "active" — together with exactly one participant
record for it: the facilitator's, active. -/
theorem session_create_enrolls_facilitator (db : DB) (name : String)
    (uid : Nat) (newId : String)
    (hv : sessionNameInvalid name = false)
    (hfs : ∀ s ∈ db.sessions, s.id ≠ newId)
    (hfp : ∀ p ∈ db.participants, p.sessionId ≠ newId) :
    (session_create db name uid newId).1.status = 201 ∧
    (session_create db name uid newId).1.sessionData =
      some ⟨newId, stripStr name, uid, "active", db.now⟩ ∧
    findSession (session_create db name uid newId).2 newId =
      some ⟨newId, stripStr name, uid, "active", db.now⟩ ∧
    (session_create db name uid newId).2.participants.filter
        (fun p => p.sessionId == newId) = [⟨newId, uid, db.now, true⟩] := by
  refine ⟨by simp [session_create, hv], by simp [session_create, hv], ?_, ?_⟩
  · have h1 : db.sessions.find? (fun s => s.id == newId) = none :=
      List.find?_eq_none.2 (fun s hsmem => by simp [hfs s hsmem])
    simp [findSession, session_create, hv, List.find?_append, h1]
  · have h2 : db.participants.filter (fun p => p.sessionId == newId) = [] :=
      List.filter_eq_nil_iff.2 (fun p hpm => by simp [hfp p hpm])
    simp [session_create, hv, List.filter_append, h2]

/-- C5 witness: Bob (id 2) creates "Retro Board" under the fresh id "s9":
201, facilitator Bob, status "active", and exactly his one active
participant record. -/
theorem session_create_enrolls_facilitator_witness :
    sessionNameInvalid "Retro Board" = false ∧
    (session_create exDb "Retro Board" 2 "s9").1.status = 201 ∧
    findSession (session_create exDb "Retro Board" 2 "s9").2 "s9" =
      some ⟨"s9", "Retro Board", 2, "active", 4⟩ ∧
    (session_create exDb "Retro Board" 2 "s9").2.participants.filter
        (fun p => p.sessionId == "s9") = [⟨"s9", 2, 4, true⟩] := by
  have h := session_create_enrolls_facilitator exDb "Retro Board" 2 "s9"
    (by decide) (by decide) (by decide)
  exact ⟨by decide, h.1, h.2.2.1, h.2.2.2⟩

theorem renameUser_email (first last email : String) (v : User) :
    (renameUser first last email v).email = v.email := by
  unfold renameUser
  split <;> rfl

theorem renameUser_pred (first last email : String) (v : User) :
    ((renameUser first last email v).email == email) = (v.email == email) := by
  rw [renameUser_email]

theorem mock_login_step (db : DB) (name email : String)
    (hn : (stripStr name).isEmpty = false)
    (he : (stripStr email).isEmpty = false) :
    (∀ u0, findUserByEmail db (stripStr email) = some u0 →
      (mock_login db name email).1.status = 200 ∧
      (mock_login db name email).1.userId = some u0.id ∧
      (mock_login db name email).2.users.length = db.users.length ∧
      findUserByEmail (mock_login db name email).2 (stripStr email) =
        some { u0 with firstName := firstNameOf (stripStr name),
                       lastName := lastNameOf (stripStr name) }) ∧
    (findUserByEmail db (stripStr email) = none →
      (mock_login db name email).1.status = 200 ∧
      (mock_login db name email).1.userId = some db.nextUserId ∧
      (mock_login db name email).2.users.length = db.users.length + 1 ∧
      findUserByEmail (mock_login db name email).2 (stripStr email) =
        some ⟨db.nextUserId, stripStr email, firstNameOf (stripStr name),
              lastNameOf (stripStr name), true⟩) := by
  constructor
  · intro u0 hf
    have hkey : (u0.email == stripStr email) = true := by
      have := List.find?_some (p := fun u : User => u.email == stripStr email)
        (by simpa [findUserByEmail] using hf)
      exact this
    refine ⟨by simp [mock_login, hn, he, hf], by simp [mock_login, hn, he, hf],
      by simp [mock_login, hn, he, hf], ?_⟩
    have hmap := find?_map_pred
      (f := renameUser (firstNameOf (stripStr name))
        (lastNameOf (stripStr name)) (stripStr email))
      (p := fun u : User => u.email == stripStr email)
      (fun a => renameUser_pred _ _ _ a) db.users
    simp only [mock_login, hn, he, Bool.or_self, Bool.false_eq_true,
      if_false, hf]
    unfold findUserByEmail at hf ⊢
    simp only []
    rw [hmap, hf]
    simp [renameUser, hkey]
  · intro hf
    refine ⟨by simp [mock_login, hn, he, hf], by simp [mock_login, hn, he, hf],
      by simp [mock_login, hn, he, hf], ?_⟩
    simp only [mock_login, hn, he, Bool.or_self, Bool.false_eq_true,
      if_false, hf]
    unfold findUserByEmail at hf ⊢
    simp only []
    rw [List.find?_append, hf]
    simp [List.find?_cons]

/-- C7: logging in twice with the same (valid) email never creates a
second user: the first login's user record is found again, the user list
does not grow, the same user id is reported, and the stored first/last
name reflect the most recent login's name (split on the first space). -/
theorem mock_login_idempotent_identity (db : DB)
    (name1 name2 email : String)
    (h1 : (stripStr name1).isEmpty = false)
    (h2 : (stripStr name2).isEmpty = false)
    (he : (stripStr email).isEmpty = false) :
    ∃ u1,
      findUserByEmail (mock_login db name1 email).2 (stripStr email) =
        some u1 ∧
      (mock_login (mock_login db name1 email).2 name2 email).2.users.length =
        (mock_login db name1 email).2.users.length ∧
      findUserByEmail
          (mock_login (mock_login db name1 email).2 name2 email).2
          (stripStr email) =
        some { u1 with firstName := firstNameOf (stripStr name2),
                       lastName := lastNameOf (stripStr name2) } ∧
      (mock_login (mock_login db name1 email).2 name2 email).1.userId =
        some u1.id := by
  have s2 := (mock_login_step (mock_login db name1 email).2 name2 email h2 he).1
  cases hf : findUserByEmail db (stripStr email) with
  | some u0 =>
      obtain ⟨-, -, -, hfind1⟩ := (mock_login_step db name1 email h1 he).1 u0 hf
      obtain ⟨-, hid2, hlen2, hfind2⟩ := s2 _ hfind1
      exact ⟨_, hfind1, hlen2, hfind2, hid2⟩
  | none =>
      obtain ⟨-, -, -, hfind1⟩ := (mock_login_step db name1 email h1 he).2 hf
      obtain ⟨-, hid2, hlen2, hfind2⟩ := s2 _ hfind1
      exact ⟨_, hfind1, hlen2, hfind2, hid2⟩

/-- C7 witness: Dave logs in twice with the same email and two different
names: one user record, the same id both times, and the stored name after
the second login is the second name's split. -/
theorem mock_login_idempotent_identity_witness :
    (stripStr "Dave North").isEmpty = false ∧
    (stripStr "dave@x.com").isEmpty = false ∧
    (∃ u1,
      findUserByEmail (mock_login exDb "Dave North" "dave@x.com").2
          (stripStr "dave@x.com") = some u1 ∧
      (mock_login (mock_login exDb "Dave North" "dave@x.com").2
          "Dave South Jr" "dave@x.com").2.users.length =
        (mock_login exDb "Dave North" "dave@x.com").2.users.length ∧
      findUserByEmail
          (mock_login (mock_login exDb "Dave North" "dave@x.com").2
            "Dave South Jr" "dave@x.com").2 (stripStr "dave@x.com") =
        some { u1 with firstName := firstNameOf (stripStr "Dave South Jr"),
                       lastName := lastNameOf (stripStr "Dave South Jr") } ∧
      (mock_login (mock_login exDb "Dave North" "dave@x.com").2
          "Dave South Jr" "dave@x.com").1.userId = some u1.id) := by
  exact ⟨by decide, by decide,
    mock_login_idempotent_identity exDb "Dave North" "Dave South Jr"
      "dave@x.com" (by decide) (by decide) (by decide)⟩

/-- C8: for an existing session and an acting user holding a participant
record, the participants listing answers 200 and returns exactly the
session's records with is_active=true, ordered by join time ascending;
inactive records never appear.  Each serialized entry carries the
participant's name, email, join time and active flag. -/
theorem session_participants_active_sorted (db : DB) (sid : String)
    (uid : Nat) (s : Session) (hs : findSession db sid = some s)
    (hp : hasParticipant db sid uid = true) :
    (session_participants db sid uid).status = 200 ∧
    (∀ p, p ∈ (session_participants db sid uid).records ↔
      (p ∈ db.participants ∧ p.sessionId = sid ∧ p.isActive = true)) ∧
    (session_participants db sid uid).records.Pairwise
      (fun a b => a.joinedAt ≤ b.joinedAt) ∧
    (session_participants db sid uid).participants =
      (session_participants db sid uid).records.map
        (serializeParticipant db) ∧
    (session_participants db sid uid).count =
      (session_participants db sid uid).records.length := by
  refine ⟨by simp [session_participants, hs, hp], ?_, ?_,
    by simp [session_participants, hs, hp],
    by simp [session_participants, hs, hp]⟩
  · intro p
    simp [session_participants, hs, hp, mem_sortByJoin, List.mem_filter,
      Bool.and_eq_true, beq_iff_eq, and_assoc]
  · have hrec : (session_participants db sid uid).records =
        sortByJoin (db.participants.filter
          (fun p => p.sessionId == sid && p.isActive)) := by
      simp [session_participants, hs, hp]
    rw [hrec]
    exact sorted_sortByJoin _

/-- C8 witness: Alice lists the participants of "s1": 200, the listing is
sorted by join time, matches the records map, and Cara's inactive record
is not among the results. -/
theorem session_participants_active_sorted_witness :
    hasParticipant exDb "s1" 1 = true ∧
    (session_participants exDb "s1" 1).status = 200 ∧
    (session_participants exDb "s1" 1).records.Pairwise
      (fun a b => a.joinedAt ≤ b.joinedAt) ∧
    ¬((⟨"s1", 3, 2, false⟩ : SessionParticipant) ∈
      (session_participants exDb "s1" 1).records) := by
  have h := session_participants_active_sorted exDb "s1" 1
    ⟨"s1", "Sprint Planning", 1, "active", 0⟩ rfl (by decide)
  refine ⟨by decide, h.1, h.2.2.1, ?_⟩
  intro hmem
  have := (h.2.1 ⟨"s1", 3, 2, false⟩).1 hmem
  exact absurd this.2.2 (by decide)

/-- C10 (implicit): the access checks of the participants listing, the
story listing and the story detail count any participant record
regardless of is_active — a user holding only an inactive record still
reads all three instead of getting 403 Forbidden. -/
theorem inactive_participant_keeps_read_access (db : DB)
    (sid stid : String) (uid : Nat) (s : Session) (p : SessionParticipant)
    (hs : findSession db sid = some s) (hmem : p ∈ db.participants)
    (hps : p.sessionId = sid) (hpu : p.userId = uid)
    (hpa : p.isActive = false) :
    (session_participants db sid uid).status = 200 ∧
    (story_list db sid uid).status = 200 ∧
    (story_retrieve db sid stid uid).status ≠ 403 := by
  have hp : hasParticipant db sid uid = true :=
    List.any_eq_true.2 ⟨p, hmem, by simp [hps, hpu]⟩
  refine ⟨by simp [session_participants, hs, hp],
    by simp [story_list, hs, hp], ?_⟩
  cases hst : db.stories.find?
      (fun st => st.sessionId == sid && st.id == stid) with
  | none => simp [story_retrieve, hs, hp, hst]
  | some st => simp [story_retrieve, hs, hp, hst]

/-- C10 witness: Cara (id 3) holds only an inactive record for "s1", yet
she can list participants, list stories and retrieve story "st1". -/
theorem inactive_participant_keeps_read_access_witness :
    (⟨"s1", 3, 2, false⟩ : SessionParticipant) ∈ exDb.participants ∧
    (⟨"s1", 3, 2, false⟩ : SessionParticipant).isActive = false ∧
    (session_participants exDb "s1" 3).status = 200 ∧
    (story_list exDb "s1" 3).status = 200 ∧
    (story_retrieve exDb "s1" "st1" 3).status ≠ 403 := by
  have h := inactive_participant_keeps_read_access exDb "s1" "st1" 3
    ⟨"s1", "Sprint Planning", 1, "active", 0⟩ ⟨"s1", 3, 2, false⟩
    rfl (by decide) rfl rfl rfl
  exact ⟨by decide, rfl, h.1, h.2.1, h.2.2⟩

end Censeo
